import Mathlib

/-!
Verification of the Builder task-execution engine.

This file gives a shallow embedding of the core of the repository:

* `backend/utils/file_ops.py` — the workspace sandbox (`_resolve_path`,
  `list_dir`), modelled over an explicit file-system tree;
* `backend/agents/claude_agent.py` — the plan generator
  (`_parse_steps_from_text`, `_static_plan`, `_create_plan`), the tool
  dispatcher (`_execute_step_with_tools`) and the task state machine
  (`execute_task`), with the external services (the Anthropic text
  completion, the GitHub client, the sandboxed file operations and the
  regular-expression searches) modelled as oracle functions collected in
  an `Env` record, matching their fail-soft string contracts;
* the task-creation endpoint of `backend/main.py` (`create_task_direct`),
  restricted to the fields the state machine reads or writes.

Wall-clock timestamps (`_now_iso`) are modelled by an ambient `now : String`
parameter; Python dict values are modelled by total structure fields, with
`Option` for values that may be `None`.
-/

namespace Builder

/-! ### String helpers mirroring the Python primitives used by the agent -/

/-- Python `s.startswith(p)` on character lists. -/
def startsWithList : List Char → List Char → Bool
  | _, [] => true
  | [], _ :: _ => false
  | c :: cs, p :: ps => c = p && startsWithList cs ps

/-- Python `pat in s` (substring containment) on character lists. -/
def containsSubList : List Char → List Char → Bool
  | [], pat => pat.isEmpty
  | c :: cs, pat => startsWithList (c :: cs) pat || containsSubList cs pat

/-- Python `s.startswith(pre)`. -/
def strStartsWith (s pre : String) : Bool := startsWithList s.data pre.data

/-- Python `s.endswith(post)`. -/
def strEndsWith (s post : String) : Bool :=
  startsWithList s.data.reverse post.data.reverse

/-- Python `pat in s`. -/
def strContains (s pat : String) : Bool := containsSubList s.data pat.data

/-- Python `s[:n]` on text. -/
def strTake (s : String) (n : Nat) : String := String.mk (s.data.take n)

/-- Python truthiness normalization for `Optional[str]`: `None` and `""` are
both falsy, so `_call_claude` results are compared against `""` after this. -/
def textOf : Option String → String
  | none => ""
  | some s => s

/-- Remove leading and trailing whitespace from a character list. -/
def trimChars (l : List Char) : List Char :=
  ((l.dropWhile Char.isWhitespace).reverse.dropWhile Char.isWhitespace).reverse

/-- Python `s.strip()`. -/
def strTrim (s : String) : String := String.mk (trimChars s.data)

/-- Python `s.split(sep)` for a one-character separator: always returns at
least one (possibly empty) piece. -/
def splitOnChar (sep : Char) : List Char → List (List Char)
  | [] => [[]]
  | c :: rest =>
    let r := splitOnChar sep rest
    if c = sep then [] :: r
    else
      match r with
      | [] => [[c]]
      | g :: gs => (c :: g) :: gs

/-- Python `sep.join(pieces)` for a one-character separator. -/
def joinWithChar (sep : Char) : List (List Char) → List Char
  | [] => []
  | [g] => g
  | g :: gs => g ++ sep :: joinWithChar sep gs

/-- Python `s.lower()`. -/
def strToLower (s : String) : String := String.mk (s.data.map Char.toLower)

/-! ### Plan generation (`ClaudeAgent._parse_steps_from_text`,
`_static_plan`, `_create_plan`) -/

/-- Python `ln[0].isdigit()` (false on the empty string; the parser only applies it
to stripped non-empty lines). -/
def firstIsDigit (s : String) : Bool :=
  match s.data with
  | [] => false
  | c :: _ => c.isDigit

/-- Python `ln.split(".", 1)`: `some (before, rest)` when `"."` occurs. -/
def splitDotOnce (s : String) : Option (String × String) :=
  match splitOnChar '.' s.data with
  | [] => none
  | [_] => none
  | p :: rest => some (String.mk p, String.mk (joinWithChar '.' rest))

/-- Python `ln.lstrip("-*• ").strip()`. -/
def stripBullet (s : String) : String :=
  String.mk (trimChars (s.data.dropWhile fun c => c = '-' || c = '*' || c = '•' || c = ' '))

/-- Python `ln.startswith(("-", "*", "•"))`. -/
def bulletStart (s : String) : Bool :=
  strStartsWith s "-" || strStartsWith s "*" || strStartsWith s "•"

/-- The bullet / plain-line part of the loop body of `_parse_steps_from_text`
(reached when the numbered-item branch does not `continue`). -/
def parse_step_rest (steps : List String) (ln : String) : List String :=
  if bulletStart ln then steps ++ [stripBullet ln]
  else if steps.length < 8 then steps ++ [ln]
  else steps

/-- One iteration of the loop body of `_parse_steps_from_text`. -/
def parse_step_line (steps : List String) (ln : String) : List String :=
  if firstIsDigit ln then
    match splitDotOnce ln with
    | some (_, rest) =>
        if strTrim rest ≠ "" then steps ++ [strTrim rest]
        else parse_step_rest steps ln
    | none => parse_step_rest steps ln
  else parse_step_rest steps ln

/-- Embedding of `ClaudeAgent._parse_steps_from_text`: strip every line, drop empty lines,
then fold the loop body over the remaining lines. -/
def parse_steps_from_text (text : String) : List String :=
  let lines :=
    (((splitOnChar '\n' text.data).map String.mk).map strTrim).filter (fun l => l ≠ "")
  lines.foldl parse_step_line []

/-- Embedding of `ClaudeAgent._static_plan`. -/
def static_plan (goal : String) : List String :=
  let cleaned := if strTrim goal = "" then "the requested task" else strTrim goal
  [ "Analyze the goal and clarify requirements for: " ++ cleaned,
    "Design and implement a solution for: " ++ cleaned,
    "Test, review, and refine the solution for: " ++ cleaned ]

/-- System prompt of the planning call in `_create_plan`. -/
def plan_system_prompt : String :=
  "You are a senior software engineer and project planner. " ++
  "Given a single development goal, break it into 3–7 concrete, " ++
  "sequential steps that a coding agent could execute. " ++
  "Each step should be short, action-focused, and specific. " ++
  "Format each step clearly with actions like: create file, write code, test, etc."

/-- User prompt of the planning call in `_create_plan`. -/
def plan_user_prompt (goal : String) : String :=
  "Goal:\n" ++ goal ++ "\n\nRespond ONLY with a list of steps, one per line. " ++
  "You may use bullet points or numbered steps. " ++
  "Be specific about file operations."

/-- Result of `_create_plan` together with how many text-completion requests
the run issued (`calls` counts invocations of `_call_claude`). -/
structure PlanResult where
  plan : List String
  calls : Nat
deriving DecidableEq

/-- Embedding of `ClaudeAgent._create_plan`.  The text-completion service is the oracle
`claude : system prompt → user prompt → max_tokens → Option String`
(`none` = client unconfigured or API failure, exactly the `None` results of
`_call_claude`); Python's `if not text` treats `None` and `""` alike, which
`textOf` captures. -/
def create_plan (claude : String → String → Nat → Option String)
    (goal0 : String) : PlanResult :=
  let goal := strTrim goal0
  if goal = "" then { plan := static_plan "the requested task", calls := 0 }
  else
    let text := textOf (claude plan_system_prompt (plan_user_prompt goal) 1200)
    if text = "" then { plan := static_plan goal, calls := 1 }
    else
      let steps := parse_steps_from_text text
      if steps = [] then { plan := static_plan goal, calls := 1 }
      else { plan := steps, calls := 1 }

/-! ### Workspace sandbox (`backend/utils/file_ops.py`)

Absolute paths are modelled as lists of components under the filesystem
root `/`; the canonical workspace root (`WORKSPACE_DIR.resolve()`) is a
`base : List String` of components. -/

/-- The Python exception classes raised (or expected by the spec) from the
sandbox layer. -/
inductive PyErr where
  | valueError : String → PyErr
  | fileNotFoundError : String → PyErr
  | notADirectoryError : String → PyErr
deriving DecidableEq

instance {ε α : Type} [DecidableEq ε] [DecidableEq α] : DecidableEq (Except ε α) := fun a b =>
  match a, b with
  | Except.ok x, Except.ok y =>
    if h : x = y then isTrue (by rw [h]) else isFalse (by intro hc; cases hc; exact h rfl)
  | Except.error x, Except.error y =>
    if h : x = y then isTrue (by rw [h]) else isFalse (by intro hc; cases hc; exact h rfl)
  | Except.ok _, Except.error _ => isFalse (by intro hc; cases hc)
  | Except.error _, Except.ok _ => isFalse (by intro hc; cases hc)

/-- Components of a path string: `pathlib` drops empty components and `"."`
segments when joining/resolving. -/
def splitPathComponents (p : String) : List String :=
  ((splitOnChar '/' p.data).map String.mk).filter (fun c => c ≠ "" && c ≠ ".")

/-- Lexical canonicalization done by `Path.resolve()`: `".."` removes the
previous component (the parent of the root is the root). -/
def normalizeComponents (comps : List String) : List String :=
  comps.foldl (fun acc c => if c = ".." then acc.dropLast else acc ++ [c]) []

/-- Python `str(path)` for an absolute path given by components. -/
def pathToString (comps : List String) : String :=
  "/" ++ String.mk (joinWithChar '/' (comps.map String.data))

/-- Embedding of `file_ops._resolve_path`: join the relative path onto the resolved base
(an absolute path replaces the base, as with `pathlib`'s `/` operator),
canonicalize, then test containment by `str(target).startswith(str(base))`
— the string-prefix check of the source, not a true descendant check. -/
def resolve_path (base : List String) (path : String) : Except PyErr (List String) :=
  let joined :=
    if strStartsWith path "/" then splitPathComponents path
    else base ++ splitPathComponents path
  let target := normalizeComponents joined
  if strStartsWith (pathToString target) (pathToString base) then Except.ok target
  else Except.error (PyErr.valueError ("Attempted to access file outside workspace: " ++ path))

/-- A node of the file-system tree: a regular file with text content, or a
directory with named children. -/
inductive FSNode where
  | file : String → FSNode
  | dir : List (String × FSNode) → FSNode

/-- Look a name up among a directory's children. -/
def lookupChild : List (String × FSNode) → String → Option FSNode
  | [], _ => none
  | (n, node) :: rest, c => if n = c then some node else lookupChild rest c

/-- Follow an absolute path (as components) down the file-system tree. -/
def fsFind : FSNode → List String → Option FSNode
  | node, [] => some node
  | node, c :: rest =>
    match node with
    | FSNode.file _ => none
    | FSNode.dir children =>
      match lookupChild children c with
      | some child => fsFind child rest
      | none => none

/-- Python `child.is_dir()`. -/
def isDirNode : FSNode → Bool
  | FSNode.file _ => false
  | FSNode.dir _ => true

/-- One entry returned by `list_dir`: `{"name": ..., "type": ...}` with
`type ∈ {"file", "directory"}`. -/
structure DirEntry where
  name : String
  type : String
deriving DecidableEq

/-- Ordering used by `sorted(target.iterdir())`: `pathlib` paths with a
common parent compare by their final component, i.e. by entry name. -/
def childLe (a b : String × FSNode) : Prop := a.1 ≤ b.1

instance : DecidableRel childLe := fun a b => inferInstanceAs (Decidable (a.1 ≤ b.1))

instance : IsTotal (String × FSNode) childLe := ⟨fun a b => le_total a.1 b.1⟩

instance : IsTrans (String × FSNode) childLe := ⟨fun _ _ _ h h2 => le_trans h h2⟩

/-- Python `sorted(target.iterdir())`: children of one directory sorted by name. -/
def sortChildren (children : List (String × FSNode)) : List (String × FSNode) :=
  List.insertionSort childLe children

/-- Embedding of `file_ops.list_dir`: resolve the path (a `ValueError` from `_resolve_path`
propagates), raise `FileNotFoundError` if the target is absent, raise
`FileNotFoundError` (with a distinct message — the source never raises
`NotADirectoryError`) if it is not a directory, otherwise list the sorted
children tagged `"directory"`/`"file"`. -/
def list_dir (fsRoot : FSNode) (base : List String) (path : String) :
    Except PyErr (List DirEntry) :=
  match resolve_path base path with
  | Except.error e => Except.error e
  | Except.ok target =>
    match fsFind fsRoot target with
    | none => Except.error (PyErr.fileNotFoundError ("Path not found: " ++ path))
    | some (FSNode.file _) =>
        Except.error (PyErr.fileNotFoundError ("Path is not a directory: " ++ path))
    | some (FSNode.dir children) =>
        Except.ok ((sortChildren children).map
          (fun c => { name := c.1, type := if isDirNode c.2 then "directory" else "file" }))

/-- Discriminator used to state that a `list_dir` failure is not of the
`NotADirectoryError` class. -/
def isNotADirectoryError : Except PyErr (List DirEntry) → Bool
  | Except.error (PyErr.notADirectoryError _) => true
  | _ => false

/-! ### Task and step data model (`backend/models.py`, restricted to the
fields the state machine reads or writes) -/

/-- Metadata values actually stored by the dispatcher: strings, lengths and
name lists. -/
inductive MetaVal where
  | str : String → MetaVal
  | nat : Nat → MetaVal
  | strList : List String → MetaVal
deriving DecidableEq

/-- A plan step, as the dicts built in `execute_task` (the `Step` model plus
the `created_at`/`updated_at` keys those dicts carry). -/
structure Step where
  description : String
  status : String
  result : Option String
  logs : List String
  error : Option String
  metadata : List (String × MetaVal)
  created_at : String
  updated_at : String
deriving DecidableEq

/-- The step default used with `List.getD` (never selected on the in-range
indices the code accesses). -/
def defaultStep : Step :=
  { description := "", status := "", result := none, logs := [], error := none,
    metadata := [], created_at := "", updated_at := "" }

/-- A task, as the dicts flowing through `execute_task` (`id`/`type`/
`project_id`/`messages`/task-level `metadata` are never touched by the
state machine and are omitted).  `current_step` is a Python `int` or
`None`, hence `Option Int`. -/
structure Task where
  goal : String
  status : String
  plan : List Step
  current_step : Option Int
  logs : List String
  created_at : String
  updated_at : String
deriving DecidableEq

/-- Embedding of `main.create_task_direct`: a fresh task is `queued` with an empty plan,
and the pydantic `Task.current_step` field defaults to `0` (not `None`). -/
def mkTask (goal now : String) : Task :=
  { goal := goal, status := "queued", plan := [], current_step := some 0,
    logs := ["Task created."], created_at := now, updated_at := now }

/-! ### The oracle environment

External services consumed by the agent, as pure oracle functions:
the text-completion call (`_call_claude`, `none` = unconfigured/failed),
the GitHub client (fail-soft, always returns a result string), the
sandboxed file operations as used by the dispatcher (`Except` carries the
exception message caught by the surrounding `try/except`), and the
regular-expression searches of `_execute_step_with_tools` /
`_extract_filename` as functions from the searched text to the optional
first capture group. -/
structure Env where
  claude : String → String → Nat → Option String
  ghRead : String → String → String
  ghUpdate : String → String → String → String → String
  fsWrite : String → String → Except String Unit
  fsRead : String → Except String String
  fsList : String → Except String (List DirEntry)
  repoMatch : String → Option String
  fileMatch : String → Option String
  extractFilename : String → Option String

/-- System prompt of the commit-content call in the GitHub update branch. -/
def commit_system_prompt : String :=
  "You are a coding assistant. Generate the file content to be committed."

/-- User prompt of the commit-content call. -/
def commit_user_prompt (goal desc : String) : String :=
  "Goal: " ++ goal ++ "\nStep: " ++ desc ++ "\n\nProvide only the file content."

/-- System prompt of the file-generation call in the create-file branch. -/
def create_file_system_prompt : String :=
  "You are a code generation assistant. Generate clean, well-documented code " ++
  "based on the step description and overall goal."

/-- User prompt of the file-generation call. -/
def create_file_user_prompt (goal desc : String) : String :=
  "Overall Goal: " ++ goal ++ "\n\nCurrent Step: " ++ desc ++ "\n\n" ++
  "Generate the complete file content. Include all necessary code, " ++
  "imports, and documentation. Respond ONLY with the file content, " ++
  "no explanations or markdown formatting."

/-- System prompt of the guidance call in the keyword-free fallback branch. -/
def guidance_system_prompt : String :=
  "You are a software development assistant executing a step in a larger task."

/-- User prompt of the guidance call. -/
def guidance_user_prompt (goal desc : String) : String :=
  "Overall Goal: " ++ goal ++ "\n\nCurrent Step: " ++ desc ++ "\n\n" ++
  "Describe what should be done for this step and what the expected outcome is. " ++
  "Be specific and actionable. Keep it under 200 words."

/-! ### Tool dispatcher (`ClaudeAgent._execute_step_with_tools`) -/

/-- The branch body of `_execute_step_with_tools`: keyword routing on the
lowercased description and the per-branch field updates.  Appending to
`step_logs` is appending to `step.logs` (the Python code appends to the
list aliased by `step["logs"]` and re-stores it). -/
def dispatch_step (env : Env) (step : Step) (task_goal : String) : Step :=
  let description := strToLower step.description
  if strContains description "github" then
    let repo_match := env.repoMatch description
    if strContains description "read" then
      let file_match := env.fileMatch description
      match repo_match, file_match with
      | some repo, some file =>
          let content := env.ghRead repo file
          { step with
            result := some ("GitHub Read Result: " ++ strTake content 100 ++ "..."),
            logs := step.logs ++ ["Read GitHub file " ++ file] }
      | _, _ => { step with result := some "Could not parse repo or file from description" }
    else if strContains description "commit" || strContains description "update" then
      let file_match := env.fileMatch description
      match repo_match, file_match with
      | some repo, some file =>
          let content := textOf (env.claude commit_system_prompt
            (commit_user_prompt task_goal description) 800)
          if content ≠ "" then
            let msg := "Update " ++ file
            let res := env.ghUpdate repo file content msg
            { step with result := some res, logs := step.logs ++ [res] }
          else { step with result := some "Failed to generate content for commit" }
      | _, _ => { step with result := some "Could not parse repo or file for commit" }
    else if strContains description "create pr" || strContains description "pull request" then
      { step with result := some "PR creation requires more structured input" }
    else step
  else if strContains description "create" && strContains description "file" then
    let content := textOf (env.claude create_file_system_prompt
      (create_file_user_prompt task_goal step.description) 4000)
    if content ≠ "" then
      match env.extractFilename step.description with
      | some filename =>
        match env.fsWrite filename content with
        | Except.ok _ =>
            { step with
              logs := step.logs ++ ["Created file: " ++ filename],
              result := some ("Successfully created " ++ filename),
              metadata := [("filename", MetaVal.str filename), ("size", MetaVal.nat content.length)] }
        | Except.error exc =>
            { step with
              error := some ("Failed to create file: " ++ exc),
              logs := step.logs ++ ["Error: " ++ exc] }
      | none =>
          { step with
            result := some "Generated content but couldn't determine filename",
            logs := step.logs ++ ["Warning: Could not extract filename from step description"] }
    else
      { step with
        result := some "Could not generate file content (Claude unavailable)",
        logs := step.logs ++ ["Warning: File generation skipped"] }
  else if strContains description "read" && strContains description "file" then
    match env.extractFilename step.description with
    | some filename =>
      match env.fsRead filename with
      | Except.ok content =>
          { step with
            result := some ("Read " ++ toString content.length ++ " characters from " ++ filename),
            logs := step.logs ++ ["Successfully read " ++ filename],
            metadata := [("filename", MetaVal.str filename),
                         ("content_preview", MetaVal.str (strTake content 200))] }
      | Except.error exc =>
          { step with
            error := some ("Failed to read file: " ++ exc),
            logs := step.logs ++ ["Error: " ++ exc] }
    | none =>
        { step with
          result := some "Could not determine which file to read",
          logs := step.logs ++ ["Warning: Filename not found in description"] }
  else if strContains description "list" || strContains description "explore" then
    match env.fsList "" with
    | Except.ok entries =>
        { step with
          result := some ("Found " ++ toString entries.length ++ " items in workspace"),
          logs := step.logs ++ ["Listed workspace: " ++ toString entries.length ++ " items"],
          metadata := [("entries", MetaVal.strList ((entries.take 10).map (fun e => e.name)))] }
    | Except.error exc =>
        { step with
          error := some ("Failed to list directory: " ++ exc),
          logs := step.logs ++ ["Error: " ++ exc] }
  else
    let guidance := textOf (env.claude guidance_system_prompt
      (guidance_user_prompt task_goal step.description) 400)
    if guidance ≠ "" then
      { step with
        result := some guidance,
        logs := step.logs ++ ["Step guidance: " ++ strTake guidance 100 ++ "..."] }
    else
      { step with
        result := some ("Completed step: " ++ step.description),
        logs := step.logs ++ ["Step completed (no specific actions)"] }

/-- Embedding of `ClaudeAgent._execute_step_with_tools`: the branch body followed by the
closing `step["updated_at"] = _now_iso()`. -/
def execute_step_with_tools (env : Env) (now : String) (step : Step) (task_goal : String) : Step :=
  { dispatch_step env step task_goal with updated_at := now }

/-! ### Task state machine (`ClaudeAgent.execute_task`) -/

/-- The step dicts built at plan creation in `execute_task`. -/
def mkStep (desc now : String) : Step :=
  { description := desc, status := "pending", result := none, logs := [],
    error := none, metadata := [], created_at := now, updated_at := now }

/-- The empty-plan branch of `execute_task`: generate a plan from the goal,
point at step 0 (or `None` for an empty plan) and mark the task
`in_progress`. -/
def planTask (env : Env) (now : String) (task : Task) : Task :=
  let descriptions := (create_plan env.claude task.goal).plan
  let steps := descriptions.map (fun desc => mkStep desc now)
  { task with
    plan := steps,
    current_step := if steps.isEmpty then none else some 0,
    status := "in_progress",
    logs := task.logs ++
      ["[" ++ now ++ "] Plan created with " ++ toString steps.length ++ " steps by ClaudeAgent."] }

/-- The in-range branch of `execute_task`: dispatch the current step, mark it
`completed`, log completion, then advance the index or finish the task. -/
def runStep (env : Env) (now : String) (task : Task) (idx : Int) : Task :=
  let n := idx.toNat
  let step0 := task.plan.getD n defaultStep
  let step1 := execute_step_with_tools env now step0 task.goal
  let step := { step1 with status := "completed", updated_at := now }
  let logs1 := task.logs ++
    ["[" ++ now ++ "] Completed step " ++ toString (idx + 1) ++ ": " ++ step.description]
  if idx + 1 < (task.plan.length : Int) then
    { task with
      plan := task.plan.set n step, current_step := some (idx + 1),
      status := "in_progress", logs := logs1 }
  else
    { task with
      plan := task.plan.set n step, current_step := none, status := "completed",
      logs := logs1 ++ ["[" ++ now ++ "] All steps completed by ClaudeAgent."] }

/-- Embedding of `ClaudeAgent.execute_task`.  The `setdefault` calls are subsumed by the
totality of the `Task` fields; `created_at` is backfilled when falsy and
`updated_at` is always refreshed. -/
def execute_task (env : Env) (now : String) (task0 : Task) : Task :=
  let task := { task0 with
    created_at := if task0.created_at = "" then now else task0.created_at,
    updated_at := now }
  if task.plan.isEmpty then planTask env now task
  else
    match task.current_step with
    | none =>
        { task with
          status := "completed",
          logs := task.logs ++ ["[" ++ now ++ "] Task marked completed; no active step."] }
    | some idx =>
      if idx < 0 ∨ (task.plan.length : Int) ≤ idx then
        { task with
          status := "completed", current_step := none,
          logs := task.logs ++
            ["[" ++ now ++ "] current_step index out of range; forcing task to completed."] }
      else runStep env now task idx

/-- Tasks reachable through task creation followed by any number of
`execute_task` invocations (with arbitrary oracle outcomes and clock
readings). -/
inductive Reachable : Task → Prop
  | create (goal now : String) : Reachable (mkTask goal now)
  | advance (env : Env) (now : String) (t : Task) :
      Reachable t → Reachable (execute_task env now t)

/-! ### Helper lemmas -/

/-- The static fallback plan always has three steps. -/
theorem static_plan_length (goal : String) : (static_plan goal).length = 3 := by
  unfold static_plan
  simp

/-- The function `_create_plan` never returns an empty plan: the static fallback has three
steps, and parsed steps are only used when non-empty. -/
theorem create_plan_ne_nil (claude : String → String → Nat → Option String)
    (goal : String) : (create_plan claude goal).plan ≠ [] := by
  unfold create_plan
  dsimp only
  split
  · simp [static_plan]
  · split
    · simp [static_plan]
    · split
      · simp [static_plan]
      · simpa using (by assumption : ¬ parse_steps_from_text _ = [])

/-- Value of `List.getD` after `List.set` at the written index. -/
theorem getD_set_self {α : Type} (l : List α) (n : Nat) (a d : α) (h : n < l.length) :
    (l.set n a).getD n d = a := by
  simp [List.getD_eq_getElem?_getD, List.getElem?_set_self h]

/-- Value of `List.getD` after `List.set` at any other index. -/
theorem getD_set_other {α : Type} (l : List α) (n i : Nat) (a d : α) (h : i ≠ n) :
    (l.set n a).getD i d = l.getD i d := by
  simp [List.getD_eq_getElem?_getD, List.getElem?_set_ne (Ne.symm h)]

/-- Frame facts about the tool dispatcher: no branch changes the step's
description or creation timestamp, and every branch only appends to the
step's logs. -/
theorem dispatch_step_frame (env : Env) (step : Step) (goal : String) :
    (dispatch_step env step goal).description = step.description ∧
    (dispatch_step env step goal).created_at = step.created_at ∧
    ∃ extra, (dispatch_step env step goal).logs = step.logs ++ extra := by
  unfold dispatch_step
  dsimp only
  repeat' split
  all_goals first
    | exact ⟨rfl, rfl, _, rfl⟩
    | exact ⟨rfl, rfl, [], (List.append_nil _).symm⟩

/-- The state-machine invariant: the current-step pointer is `None` exactly
on completed tasks, it is an in-range index while the task is
`in_progress`, and a completed task has a non-empty plan. -/
def TaskInv (t : Task) : Prop :=
  (t.current_step = none ↔ t.status = "completed") ∧
  (t.status = "in_progress" →
    ∃ i : Int, t.current_step = some i ∧ 0 ≤ i ∧ i.toNat < t.plan.length) ∧
  (t.status = "completed" → t.plan ≠ [])

/-- Freshly created tasks satisfy the invariant (they are `queued`). -/
theorem mkTask_inv (goal now : String) : TaskInv (mkTask goal now) := by
  refine ⟨by simp [mkTask], by simp [mkTask], by simp [mkTask]⟩

/-- Every `execute_task` result satisfies the invariant, whatever the input
task, the oracle outcomes and the clock. -/
theorem execute_task_inv (env : Env) (now : String) (task : Task) :
    TaskInv (execute_task env now task) := by
  unfold execute_task
  dsimp only
  split
  · -- empty plan: a fresh plan is generated
    unfold planTask
    dsimp only
    have hne : (create_plan env.claude task.goal).plan ≠ [] := create_plan_ne_nil _ _
    have hlen : 0 < ((create_plan env.claude task.goal).plan.map (fun d => mkStep d now)).length := by
      simp [List.length_pos, hne]
    refine ⟨?_, ?_, ?_⟩
    · simp only [List.isEmpty_eq_true, List.map_eq_nil_iff]
      simp [hne]
    · intro _
      refine ⟨0, ?_, le_refl 0, by simpa using hlen⟩
      simp only [List.isEmpty_eq_true, List.map_eq_nil_iff]
      simp [hne]
    · intro h
      simp at h
  · -- non-empty plan
    rename_i hplan
    split
    · -- current_step is None: treated as already finished
      rename_i hcs
      refine ⟨by simp [hcs], by simp, ?_⟩
      intro _
      simpa using hplan
    · rename_i idx hcs
      split
      · -- defensive out-of-range branch
        refine ⟨by simp, by simp, ?_⟩
        intro _
        simpa using hplan
      · -- in-range: execute the step and advance or finish
        rename_i hrange
        push_neg at hrange
        unfold runStep
        dsimp only
        split
        · rename_i hadv
          refine ⟨by simp, ?_, by simp⟩
          intro _
          exact ⟨idx + 1, rfl, by omega, by simp [List.length_set]; omega⟩
        · refine ⟨by simp, by simp, ?_⟩
          intro _
          apply List.ne_nil_of_length_pos
          have : 0 < task.plan.length := by omega
          simpa [List.length_set] using this

/-- All reachable tasks satisfy the invariant. -/
theorem reachable_TaskInv (t : Task) (h : Reachable t) : TaskInv t := by
  induction h with
  | create goal now => exact mkTask_inv goal now
  | advance env now t _ _ => exact execute_task_inv env now t

/-! ### Claim C2 -/

/-- C2 (amended): for every Task reachable through task creation and repeated
`execute_task` calls, whenever the status is `"in_progress"` the current
step is an index `i` with `0 ≤ i < len(plan)`; and `current_step` is
`none` exactly when the status is `"completed"`.  (The original claim's
"current_step is none … when the plan is empty" fails: a freshly created
queued task has an empty plan but `current_step = 0`, the pydantic field
default.) -/
theorem current_step_invariant (t : Task) (h : Reachable t) :
    (t.status = "in_progress" →
      ∃ i : Int, t.current_step = some i ∧ 0 ≤ i ∧ i.toNat < t.plan.length) ∧
    (t.current_step = none ↔ t.status = "completed") :=
  ⟨(reachable_TaskInv t h).2.1, (reachable_TaskInv t h).1⟩

/-- Witness for C2: the amended invariant evaluated at a concrete freshly
created task. -/
theorem current_step_invariant_witness :
    ((mkTask "demo goal" "t0").status = "in_progress" →
      ∃ i : Int, (mkTask "demo goal" "t0").current_step = some i ∧ 0 ≤ i ∧
        i.toNat < (mkTask "demo goal" "t0").plan.length) ∧
    ((mkTask "demo goal" "t0").current_step = none ↔
      (mkTask "demo goal" "t0").status = "completed") :=
  current_step_invariant (mkTask "demo goal" "t0") (Reachable.create "demo goal" "t0")

/-- Counterexample to C2 as stated: a freshly created queued task is
reachable, has an empty plan, and yet its `current_step` is `0`, not
`none` — refuting "current_step is none exactly when status is completed
or the plan is empty". -/
theorem current_step_counterexample :
    Reachable (mkTask "another goal" "t1") ∧
    (mkTask "another goal" "t1").plan = [] ∧
    (mkTask "another goal" "t1").status ≠ "completed" ∧
    (mkTask "another goal" "t1").current_step = some 0 :=
  ⟨Reachable.create "another goal" "t1", rfl, by decide, rfl⟩

/-! ### Claim C3 -/

/-- C3: once a reachable task is `"completed"`, `execute_task` is idempotent:
the plan, status and current-step pointer are returned unchanged and the
log sequence only grows (the prior logs are a prefix of the new ones). -/
theorem execute_task_idempotent_on_completed (env : Env) (now : String) (task : Task)
    (hr : Reachable task) (hc : task.status = "completed") :
    (execute_task env now task).plan = task.plan ∧
    (execute_task env now task).status = task.status ∧
    (execute_task env now task).current_step = task.current_step ∧
    ∃ extra, (execute_task env now task).logs = task.logs ++ extra := by
  obtain ⟨hiff, _, hne⟩ := reachable_TaskInv task hr
  have hcs : task.current_step = none := hiff.mpr hc
  have hplan : task.plan ≠ [] := hne hc
  unfold execute_task
  dsimp only
  split
  · rename_i he
    rw [List.isEmpty_eq_true] at he
    exact absurd he hplan
  · split
    · exact ⟨rfl, hc.symm, rfl, ⟨_, rfl⟩⟩
    · rename_i idx hidx
      rw [hcs] at hidx
      exact absurd hidx (by simp)

/-- Oracle environment used by the idempotence witness: the completion
service always answers with a one-step numbered plan, the remaining
services answer trivially. -/
def onePlanEnv : Env :=
  { claude := fun _ _ _ => some "1. do it",
    ghRead := fun _ _ => "", ghUpdate := fun _ _ _ _ => "",
    fsWrite := fun _ _ => Except.ok (), fsRead := fun _ => Except.error "File not found: x",
    fsList := fun _ => Except.ok [], repoMatch := fun _ => none,
    fileMatch := fun _ => none, extractFilename := fun _ => none }

/-- A reachable completed task: create, plan, then run the single step. -/
def completedTask : Task :=
  execute_task onePlanEnv "t2" (execute_task onePlanEnv "t1" (mkTask "g" "t0"))

/-- Witness for C3: idempotence at a concrete reachable completed task. -/
theorem execute_task_idempotent_witness :
    (execute_task onePlanEnv "t3" completedTask).plan = completedTask.plan ∧
    (execute_task onePlanEnv "t3" completedTask).status = completedTask.status ∧
    (execute_task onePlanEnv "t3" completedTask).current_step = completedTask.current_step ∧
    ∃ extra, (execute_task onePlanEnv "t3" completedTask).logs = completedTask.logs ++ extra :=
  execute_task_idempotent_on_completed onePlanEnv "t3" completedTask
    (Reachable.advance onePlanEnv "t2" _
      (Reachable.advance onePlanEnv "t1" _ (Reachable.create "g" "t0")))
    (by decide)

/-! ### Claim C4 -/

/-- C4 (amended): for every step and every outcome of the external services,
dispatching the current step always marks it `"completed"` (never leaves
it `"pending"`), appends at least one line to the Task's log sequence,
and never removes a line from the Step's log sequence.  (The original
claim's "appends at least one line to the Step's log sequence" and
"populates the Step's result" fail in the remote-repository branches —
see the counterexample.) -/
theorem dispatch_completes_and_logs (env : Env) (now : String) (task : Task) (idx : Int)
    (h1 : task.current_step = some idx) (h2 : 0 ≤ idx)
    (h3 : idx < (task.plan.length : Int)) :
    ((execute_task env now task).plan.getD idx.toNat defaultStep).status = "completed" ∧
    task.logs.length < (execute_task env now task).logs.length ∧
    ∃ extra, ((execute_task env now task).plan.getD idx.toNat defaultStep).logs =
      (task.plan.getD idx.toNat defaultStep).logs ++ extra := by
  have hplanne : task.plan ≠ [] := by
    apply List.ne_nil_of_length_pos
    omega
  have hidx : idx.toNat < task.plan.length := by omega
  unfold execute_task
  dsimp only
  rw [if_neg (by simpa using hplanne), h1]
  dsimp only
  rw [if_neg (by omega : ¬ (idx < 0 ∨ (task.plan.length : Int) ≤ idx))]
  unfold runStep
  dsimp only
  obtain ⟨-, -, extra, hextra⟩ :=
    dispatch_step_frame env (task.plan.getD idx.toNat defaultStep) task.goal
  split
  · refine ⟨?_, by simp, ?_⟩
    · rw [getD_set_self _ _ _ _ hidx]
    · refine ⟨extra, ?_⟩
      rw [getD_set_self _ _ _ _ hidx]
      exact hextra
  · refine ⟨?_, by simp, ?_⟩
    · rw [getD_set_self _ _ _ _ hidx]
    · refine ⟨extra, ?_⟩
      rw [getD_set_self _ _ _ _ hidx]
      exact hextra

/-- Oracle environment answering `none`/trivially everywhere (completion
service unavailable, no regular-expression matches). -/
def plainEnv : Env :=
  { claude := fun _ _ _ => none,
    ghRead := fun _ _ => "", ghUpdate := fun _ _ _ _ => "",
    fsWrite := fun _ _ => Except.ok (), fsRead := fun _ => Except.error "File not found: x",
    fsList := fun _ => Except.ok [], repoMatch := fun _ => none,
    fileMatch := fun _ => none, extractFilename := fun _ => none }

/-- An in-progress task whose current step routes to the GitHub branch but
matches none of its sub-keywords. -/
def ghTask : Task :=
  { goal := "g", status := "in_progress",
    plan := [mkStep "Check GitHub for ideas" "t0"],
    current_step := some 0, logs := ["prior"], created_at := "t0", updated_at := "t0" }

/-- Counterexample to C4 as stated: executing the GitHub-routed step appends
no line to the Step's log sequence and leaves its `result` unset (the
step is still marked `"completed"`), refuting "each routing branch …
appends at least one line to the Step's log sequence … populates the
Step's result". -/
theorem dispatch_step_log_counterexample :
    ((execute_task plainEnv "t1" ghTask).plan.getD 0 defaultStep).status = "completed" ∧
    ((execute_task plainEnv "t1" ghTask).plan.getD 0 defaultStep).logs = [] ∧
    ((execute_task plainEnv "t1" ghTask).plan.getD 0 defaultStep).result = none := by
  decide

/-- An in-progress task whose current step matches no dispatcher keyword. -/
def fallbackTask : Task :=
  { goal := "g", status := "in_progress",
    plan := [mkStep "do the thing" "t0"],
    current_step := some 0, logs := ["prior"], created_at := "t0", updated_at := "t0" }

/-- Witness for C4: the amended guarantee evaluated on a concrete task and
environment. -/
theorem dispatch_completes_and_logs_witness :
    ((execute_task plainEnv "t1" fallbackTask).plan.getD (0 : Int).toNat defaultStep).status
        = "completed" ∧
    fallbackTask.logs.length < (execute_task plainEnv "t1" fallbackTask).logs.length ∧
    ∃ extra, ((execute_task plainEnv "t1" fallbackTask).plan.getD (0 : Int).toNat defaultStep).logs =
      (fallbackTask.plan.getD (0 : Int).toNat defaultStep).logs ++ extra :=
  dispatch_completes_and_logs plainEnv "t1" fallbackTask 0 rfl (by decide) (by decide)

/-! ### Claim C7 -/

/-- C7 (amended): once the plan exists, `execute_task` preserves its length
and order, and every step's description and creation timestamp are left
unchanged.  (The original claim's "the only step fields that mutate are
status, result, logs, and error" fails: the dispatcher also rewrites
`metadata`, and the closing bookkeeping rewrites `updated_at` — see the
counterexample.) -/
theorem plan_frame (env : Env) (now : String) (task : Task) (h : task.plan ≠ []) :
    (execute_task env now task).plan.length = task.plan.length ∧
    (∀ i : Nat, ((execute_task env now task).plan.getD i defaultStep).description =
      (task.plan.getD i defaultStep).description) ∧
    (∀ i : Nat, ((execute_task env now task).plan.getD i defaultStep).created_at =
      (task.plan.getD i defaultStep).created_at) := by
  unfold execute_task
  dsimp only
  rw [if_neg (by simpa using h)]
  split
  · exact ⟨rfl, fun _ => rfl, fun _ => rfl⟩
  · rename_i idx hcs
    split
    · exact ⟨rfl, fun _ => rfl, fun _ => rfl⟩
    · rename_i hrange
      push_neg at hrange
      have hidx : idx.toNat < task.plan.length := by omega
      unfold runStep
      dsimp only
      obtain ⟨hdesc, hcreated, -⟩ :=
        dispatch_step_frame env (task.plan.getD idx.toNat defaultStep) task.goal
      have hlen : ∀ s : Step, (task.plan.set idx.toNat s).length = task.plan.length :=
        fun _ => List.length_set task.plan idx.toNat _
      split
      all_goals refine ⟨hlen _, fun i => ?_, fun i => ?_⟩
      all_goals by_cases hi : i = idx.toNat
      · subst hi
        rw [getD_set_self _ _ _ _ hidx]
        exact hdesc
      · rw [getD_set_other _ _ _ _ _ hi]
      · subst hi
        rw [getD_set_self _ _ _ _ hidx]
        exact hcreated
      · rw [getD_set_other _ _ _ _ _ hi]
      · subst hi
        rw [getD_set_self _ _ _ _ hidx]
        exact hdesc
      · rw [getD_set_other _ _ _ _ _ hi]
      · subst hi
        rw [getD_set_self _ _ _ _ hidx]
        exact hcreated
      · rw [getD_set_other _ _ _ _ _ hi]

/-- Environment for the metadata counterexample: listing the workspace
succeeds with no entries. -/
def listEnv : Env :=
  { claude := fun _ _ _ => none,
    ghRead := fun _ _ => "", ghUpdate := fun _ _ _ _ => "",
    fsWrite := fun _ _ => Except.ok (), fsRead := fun _ => Except.error "File not found: x",
    fsList := fun _ => Except.ok [], repoMatch := fun _ => none,
    fileMatch := fun _ => none, extractFilename := fun _ => none }

/-- An in-progress task whose current step routes to the listing branch. -/
def listTask : Task :=
  { goal := "g", status := "in_progress",
    plan := [mkStep "List files in the workspace" "t0"],
    current_step := some 0, logs := [], created_at := "t0", updated_at := "t0" }

/-- Counterexample to C7 as stated: executing the listing step mutates the
step's `metadata` field, refuting "the only step fields that mutate are
status, result, logs, and error". -/
theorem step_metadata_counterexample :
    ((execute_task listEnv "t1" listTask).plan.getD 0 defaultStep).metadata ≠
      (listTask.plan.getD 0 defaultStep).metadata := by
  decide

/-- Witness for C7: the frame property evaluated on a concrete task. -/
theorem plan_frame_witness :
    (execute_task listEnv "t1" listTask).plan.length = listTask.plan.length ∧
    (∀ i : Nat, ((execute_task listEnv "t1" listTask).plan.getD i defaultStep).description =
      (listTask.plan.getD i defaultStep).description) ∧
    (∀ i : Nat, ((execute_task listEnv "t1" listTask).plan.getD i defaultStep).created_at =
      (listTask.plan.getD i defaultStep).created_at) :=
  plan_frame listEnv "t1" listTask (by decide)

/-! ### Claim C5 -/

/-- C5 (amended): `_create_plan` first trims the goal; when the trimmed goal
is empty it returns the static fallback plan for the placeholder
"the requested task" **without issuing any completion request**;
otherwise it issues exactly one completion request and returns the static
fallback plan exactly when the call fails or returns no text, or the text
parses to zero steps — and the parsed steps otherwise.  (The original
claim's "issues exactly one text-completion request" for every goal,
including empty ones, fails — see the counterexample.) -/
theorem create_plan_policy (claude : String → String → Nat → Option String)
    (goal : String) :
    (create_plan claude goal).calls = (if strTrim goal = "" then 0 else 1) ∧
    (create_plan claude goal).plan =
      (if strTrim goal = "" then static_plan "the requested task"
       else if textOf (claude plan_system_prompt (plan_user_prompt (strTrim goal)) 1200) = ""
         then static_plan (strTrim goal)
       else if parse_steps_from_text
           (textOf (claude plan_system_prompt (plan_user_prompt (strTrim goal)) 1200)) = []
         then static_plan (strTrim goal)
       else parse_steps_from_text
           (textOf (claude plan_system_prompt (plan_user_prompt (strTrim goal)) 1200))) := by
  unfold create_plan
  dsimp only
  split
  · simp_all
  · split
    · simp_all
    · split
      · simp_all
      · simp_all

/-- Counterexample to C5 as stated: for a whitespace-only goal the plan
generator makes zero completion requests (even with a responsive
completion service), not exactly one. -/
theorem create_plan_no_call_counterexample :
    (create_plan (fun _ _ _ => some "1. step one") "   ").calls = 0 := by
  decide

/-! ### Claim C6 -/

/-- C6 (amended): for every goal and every completion outcome the plan
generator returns a non-empty ordered sequence of steps and (being a
total function over the oracle outcomes) never raises for parsing
failures.  (The original claim's "sequence of non-empty strings" fails:
a bullet-only line parses to the empty step string — see the
counterexample.) -/
theorem create_plan_plan_nonempty (claude : String → String → Nat → Option String)
    (goal : String) : (create_plan claude goal).plan ≠ [] :=
  create_plan_ne_nil claude goal

/-- Counterexample to C6 as stated: a response consisting of a bare bullet
glyph yields a plan containing the empty step description. -/
theorem create_plan_empty_step_counterexample :
    (create_plan (fun _ _ _ => some "-") "build an app").plan = [""] := by
  decide

/-! ### Claim C8 -/

/-- C8: with the completion service unavailable and the empty goal, the plan
generator returns exactly 3 steps beginning with "Analyze the goal",
"Design and implement a solution for" and "Test, review, and refine the
solution for", each ending with "the requested task". -/
theorem fallback_plan_shape :
    (create_plan (fun _ _ _ => none) "").plan.length = 3 ∧
    strStartsWith ((create_plan (fun _ _ _ => none) "").plan.getD 0 "")
      "Analyze the goal" = true ∧
    strStartsWith ((create_plan (fun _ _ _ => none) "").plan.getD 1 "")
      "Design and implement a solution for" = true ∧
    strStartsWith ((create_plan (fun _ _ _ => none) "").plan.getD 2 "")
      "Test, review, and refine the solution for" = true ∧
    strEndsWith ((create_plan (fun _ _ _ => none) "").plan.getD 0 "")
      "the requested task" = true ∧
    strEndsWith ((create_plan (fun _ _ _ => none) "").plan.getD 1 "")
      "the requested task" = true ∧
    strEndsWith ((create_plan (fun _ _ _ => none) "").plan.getD 2 "")
      "the requested task" = true := by
  decide

/-! ### Claim C10 -/

/-- A completion response of nine bulleted lines. -/
def nineBulletText : String :=
  "- a\n- b\n- c\n- d\n- e\n- f\n- g\n- h\n- i"

/-- C10: the 8-step cap of `_parse_steps_from_text` applies only to plain
lines, so a response of nine bulleted lines parses to nine steps — more
than 8. -/
theorem parse_steps_exceeds_cap :
    (parse_steps_from_text nineBulletText).length = 9 ∧
    8 < (parse_steps_from_text nineBulletText).length := by
  decide

/-! ### Claim C1 -/

/-- C1: the spec's two examples do hold (`"../../etc/passwd"` fails with the
containment error, `"sub/dir/file.txt"` resolves to a descendant of the
root), but the containment check of `_resolve_path` is a string-prefix
test on the canonicalized path, not a descendant test: with the root
`/home/builder/workspace`, the relative path
`"../workspace_evil/secret.txt"` canonicalizes to the sibling
`/home/builder/workspace_evil/secret.txt`, which is **not** a descendant
of the root, yet the check accepts it because the path string starts with
the root string.  This contradicts the code's own stated purpose of
constraining all file operations to the workspace directory. -/
theorem resolve_path_escape_bug :
    resolve_path ["home", "builder", "workspace"] "../workspace_evil/secret.txt" =
      Except.ok ["home", "builder", "workspace_evil", "secret.txt"] ∧
    ¬ (["home", "builder", "workspace"] <+:
        ["home", "builder", "workspace_evil", "secret.txt"]) ∧
    resolve_path ["home", "builder", "workspace"] "../../etc/passwd" =
      Except.error
        (PyErr.valueError "Attempted to access file outside workspace: ../../etc/passwd") ∧
    resolve_path ["home", "builder", "workspace"] "sub/dir/file.txt" =
      Except.ok ["home", "builder", "workspace", "sub", "dir", "file.txt"] ∧
    ["home", "builder", "workspace"] <+:
      ["home", "builder", "workspace", "sub", "dir", "file.txt"] := by
  decide

/-! ### Claim C9 -/

/-- The insertion sort used by `list_dir` yields a name-sorted child list. -/
theorem sortChildren_sorted (children : List (String × FSNode)) :
    List.Pairwise childLe (sortChildren children) :=
  List.sorted_insertionSort childLe children

/-- C9 (amended): `list_dir` fails with `FileNotFoundError` ("Path not
found") when the path is absent, fails again with `FileNotFoundError`
(message "Path is not a directory" — the source never raises a distinct
`NotADirectoryError`) when the path exists but is not a directory, and
otherwise returns entries tagged `"file"`/`"directory"` in lexicographic
order by name. -/
theorem list_dir_cases (fs : FSNode) (base : List String) (path : String)
    (target : List String) (hres : resolve_path base path = Except.ok target) :
    (fsFind fs target = none →
      list_dir fs base path =
        Except.error (PyErr.fileNotFoundError ("Path not found: " ++ path))) ∧
    (∀ content, fsFind fs target = some (FSNode.file content) →
      list_dir fs base path =
        Except.error (PyErr.fileNotFoundError ("Path is not a directory: " ++ path))) ∧
    (∀ children, fsFind fs target = some (FSNode.dir children) →
      ∃ entries, list_dir fs base path = Except.ok entries ∧
        List.Pairwise (fun a b : DirEntry => a.name ≤ b.name) entries ∧
        ∀ e ∈ entries, e.type = "file" ∨ e.type = "directory") := by
  refine ⟨?_, ?_, ?_⟩
  · intro h
    simp only [list_dir, hres, h]
  · intro c h
    simp only [list_dir, hres, h]
  · intro children h
    simp only [list_dir, hres, h]
    refine ⟨_, rfl, ?_, ?_⟩
    · exact List.Pairwise.map _ (fun a b hab => hab) (sortChildren_sorted children)
    · intro e he
      rw [List.mem_map] at he
      obtain ⟨c, -, rfl⟩ := he
      dsimp only
      split
      · exact Or.inr rfl
      · exact Or.inl rfl

/-- A sample file system: the workspace root contains a file `a` and a
directory `d` with two files listed out of order. -/
def sampleFS : FSNode :=
  FSNode.dir
    [("d", FSNode.dir [("b", FSNode.file "2"), ("a", FSNode.file "1")]),
     ("a", FSNode.file "x")]

/-- Witness for C9: the three amended cases evaluated on a concrete file
system (absent path, file path, directory path). -/
theorem list_dir_cases_witness :
    list_dir sampleFS [] "zzz" =
      Except.error (PyErr.fileNotFoundError ("Path not found: " ++ "zzz")) ∧
    list_dir sampleFS [] "a" =
      Except.error (PyErr.fileNotFoundError ("Path is not a directory: " ++ "a")) ∧
    (∃ entries, list_dir sampleFS [] "d" = Except.ok entries ∧
      List.Pairwise (fun a b : DirEntry => a.name ≤ b.name) entries ∧
      ∀ e ∈ entries, e.type = "file" ∨ e.type = "directory") :=
  ⟨(list_dir_cases sampleFS [] "zzz" ["zzz"] rfl).1 rfl,
   (list_dir_cases sampleFS [] "a" ["a"] rfl).2.1 "x" rfl,
   (list_dir_cases sampleFS [] "d" ["d"] rfl).2.2
     [("b", FSNode.file "2"), ("a", FSNode.file "1")] rfl⟩

/-- Counterexample to C9 as stated: a path that exists but is not a
directory fails with `FileNotFoundError`, not with the distinct
`NotADirectoryError` the claim names. -/
theorem list_dir_error_kind_counterexample :
    list_dir sampleFS [] "a" =
      Except.error (PyErr.fileNotFoundError "Path is not a directory: a") ∧
    isNotADirectoryError (list_dir sampleFS [] "a") = false := by
  decide

end Builder
